import Mathlib

/-!
Shallow embedding of `src/src/personas/maid_manager.rs` (the MaidManager
persona of the safe_vault storage node) and verification of its
natural-language specification.

Machine integers: the Rust source uses `u64` fields and arithmetic.  We model
values as `Nat` together with the modulus `U64_MOD = 2^64`; additions that can
overflow in the source are taken modulo `U64_MOD` (release-mode Rust wrapping
semantics), and subtractions only ever occur when the source has already
checked they cannot underflow.

External collaborators (the routing layer, the LRU cache crate, the
serialisation codec, sha512) are modelled at their interface boundary:
messages sent through the routing node are collected in an output trace, the
request cache is a key-value map, and the codec is a concrete injective
encoding.
-/

namespace SafeVault

/-- `2^64`, the modulus of Rust `u64` arithmetic. -/
def U64_MOD : Nat := 18446744073709551616

/-- `const DEFAULT_ACCOUNT_SIZE: u64 = 1_073_741_824;  // 1 GB` -/
def DEFAULT_ACCOUNT_SIZE : Nat := 1073741824

/-- `const DEFAULT_PAYMENT: u64 = 1_048_576;  // 1 MB` -/
def DEFAULT_PAYMENT : Nat := 1048576

/-- Mirrors `struct Account { data_stored: u64, space_available: u64 }`.
Fields are `Nat`s that stand for `u64` values (see `Account.wf`). -/
structure Account where
  data_stored : Nat
  space_available : Nat
deriving DecidableEq, Repr

/-- Both fields are representable `u64` values. -/
def Account.wf (a : Account) : Prop :=
  a.data_stored < U64_MOD ∧ a.space_available < U64_MOD

instance (a : Account) : Decidable a.wf := by
  unfold Account.wf; infer_instance

/-- Mirrors `impl Default for Account`: `data_stored = 0`,
`space_available = DEFAULT_ACCOUNT_SIZE`. -/
def Account.mkDefault : Account :=
  { data_stored := 0, space_available := DEFAULT_ACCOUNT_SIZE }

/-- The client-level error type.  `error::ClientError` is declared outside
`src/`; the three variants are the ones this source file constructs and the
spec names (insufficient quota / `LowBalance`, `AccountExists`,
`NoSuchAccount`). -/
inductive ClientError where
  | LowBalance
  | AccountExists
  | NoSuchAccount
deriving DecidableEq, Repr

/-- Mirrors `Account::put_data(&mut self, size: u64) -> Result<(), ClientError>`.
The pair is (the account after the call, the returned result): on the error
path the source returns before mutating, so the account is returned unchanged;
on the success path `data_stored += size` (wrapping u64 addition) and
`space_available -= size` (cannot underflow: `size <= space_available`). -/
def Account.put_data (a : Account) (size : Nat) :
    Account × Except ClientError Unit :=
  if size > a.space_available then
    (a, Except.error ClientError.LowBalance)
  else
    ({ data_stored := (a.data_stored + size) % U64_MOD,
       space_available := a.space_available - size }, Except.ok ())

/-- Mirrors `Account::delete_data(&mut self, size: u64)`:
if `data_stored < size` then `space_available += data_stored; data_stored = 0`
(the defensive clamp), else `data_stored -= size; space_available += size`.
The additions are wrapping u64 additions. -/
def Account.delete_data (a : Account) (size : Nat) : Account :=
  if a.data_stored < size then
    { data_stored := 0,
      space_available := (a.space_available + a.data_stored) % U64_MOD }
  else
    { data_stored := a.data_stored - size,
      space_available := (a.space_available + size) % U64_MOD }

/-- One accounting operation on an `Account`: a debit (`put_data`) or a
refund (`delete_data`). -/
inductive AccountOp where
  | debit (size : Nat)
  | refund (size : Nat)
deriving DecidableEq, Repr

/-- Apply one `AccountOp` to an account (a failed debit leaves the account
unchanged, exactly as the source's early return does). -/
def Account.applyOp (a : Account) : AccountOp → Account
  | AccountOp.debit size => (a.put_data size).1
  | AccountOp.refund size => a.delete_data size

/-- Apply a finite sequence of accounting operations, first element first. -/
def Account.applyOps (a : Account) (ops : List AccountOp) : Account :=
  ops.foldl Account.applyOp a

/-- `RemoveRefund s l l'` holds when `l'` is `l` with exactly one
`refund t`, `t ≤ s`, removed: that refund is the one matched to a debit of
size `s`. -/
inductive RemoveRefund : Nat → List AccountOp → List AccountOp → Prop where
  | head (s t : Nat) (rest : List AccountOp) (h : t ≤ s) :
      RemoveRefund s (AccountOp.refund t :: rest) rest
  | tail (s : Nat) (op : AccountOp) (l l' : List AccountOp)
      (h : RemoveRefund s l l') :
      RemoveRefund s (op :: l) (op :: l')

/-- The spec's hypothesis on an operation sequence: every debit of size `s`
is eventually matched by exactly one later refund of size `s` or less (each
matched refund is consumed, so two debits cannot share a refund; unmatched
refunds are permitted, mirroring refunds caused by deletions). -/
inductive MatchedOps : List AccountOp → Prop where
  | nil : MatchedOps []
  | refund (t : Nat) (rest : List AccountOp) (h : MatchedOps rest) :
      MatchedOps (AccountOp.refund t :: rest)
  | debit (s : Nat) (rest rest' : List AccountOp)
      (hrem : RemoveRefund s rest rest') (h : MatchedOps rest') :
      MatchedOps (AccountOp.debit s :: rest)

/-- The conserved quantity of an account. -/
def Account.total (a : Account) : Nat :=
  a.data_stored + a.space_available

/-- `xor_name::XorName`, a fixed-width network address; modelled opaquely. -/
abbrev XorName := Nat

/-- `routing::MessageId`, the caller-chosen request identifier. -/
abbrev MessageId := Nat

/-- `routing::Authority` (external crate), modelled by the variants this file
uses together with the `name()` projection each carries: `ClientManager` and
`NaeManager` are addressed by an `XorName`; a `Client` authority's name is the
address derived from its key, modelled as a carried `XorName`. -/
inductive Authority where
  | ClientManager (name : XorName)
  | NaeManager (name : XorName)
  | Client (name : XorName)
deriving DecidableEq, Repr

/-- `Authority::name()`. -/
def Authority.name : Authority → XorName
  | Authority.ClientManager n => n
  | Authority.NaeManager n => n
  | Authority.Client n => n

/-- `routing::Data` restricted to the payload kinds this handler accepts:
immutable content (addressed by its content name) and structured content
(content name plus `type_tag` discriminator). -/
inductive Data where
  | Immutable (name : XorName)
  | Structured (name : XorName) (type_tag : Nat)
deriving DecidableEq, Repr

/-- `Data::name()`, the content address used to route the forwarded put. -/
def Data.name : Data → XorName
  | Data.Immutable n => n
  | Data.Structured n _ => n

/-- `routing::RequestMessage` in the `Put` case: source and destination
authorities plus the `Put(data, message_id)` content. -/
structure RequestMessage where
  src : Authority
  dst : Authority
  data : Data
  msg_id : MessageId
deriving DecidableEq, Repr

/-- Models `utils::client_name(&request.src)` (the `utils` module is outside
`src/`): the client `XorName` determined by the source authority. -/
def client_name (a : Authority) : XorName :=
  a.name

/-- The internal (non-client) error type.  `error::InternalError` is declared
outside `src/`; the variants are the ones this source file constructs:
`FailedToFindCachedRequest(MessageId)`, `Client(ClientError)`, and the
serialisation failure converted by `try!`.  `InvalidDispatch` stands for the
source's `unreachable!` panics (the model returns an error where the source
aborts the process; no verified claim exercises this case). -/
inductive InternalError where
  | FailedToFindCachedRequest (id : MessageId)
  | Client (e : ClientError)
  | Serialisation
  | InvalidDispatch
deriving DecidableEq, Repr

/-- Models `maidsafe_utilities::serialisation::serialise` on `ClientError`
(external codec): an injective byte encoding. -/
def serialise_client_error : ClientError → List Nat
  | ClientError.LowBalance => [0]
  | ClientError.AccountExists => [1]
  | ClientError.NoSuchAccount => [2]

/-- Models `maidsafe_utilities::serialisation::deserialise::<ClientError>`
(external codec): inverse of `serialise_client_error`, failing on bytes that
encode no variant. -/
def deserialise_client_error : List Nat → Option ClientError
  | [0] => some ClientError.LowBalance
  | [1] => some ClientError.AccountExists
  | [2] => some ClientError.NoSuchAccount
  | _ => none

/-- Models `sha512::hash(&serialise(&client_request))` (external hash over the
external codec): a concrete injective digest of the full cached request. -/
def message_hash (r : RequestMessage) : Nat :=
  Nat.pair (Authority.name r.src)
    (Nat.pair (Authority.name r.dst) (Nat.pair (Data.name r.data) r.msg_id))

/-- Association-list lookup: the value stored under key `k`, if any.  This is
the map interface shared by `HashMap::get` and the cache crate's lookup. -/
def alLookup {α : Type} : List (Nat × α) → Nat → Option α
  | [], _ => none
  | (k, v) :: rest, k' => if k = k' then some v else alLookup rest k'

/-- Association-list key removal (all entries under `k` go; on a map with
unique keys this is exactly `HashMap::remove` / cache `remove`). -/
def alErase {α : Type} (l : List (Nat × α)) (k : Nat) : List (Nat × α) :=
  l.filter (fun p => p.1 != k)

/-- Association-list insert, returning the previous value under the key (the
`Option<previous>` that both `HashMap::insert` and the cache crate's `insert`
return) together with the updated map. -/
def alInsert {α : Type} (l : List (Nat × α)) (k : Nat) (v : α) :
    Option α × List (Nat × α) :=
  (alLookup l k, (k, v) :: alErase l k)

/-- Mirrors `struct MaidManager { accounts: HashMap<XorName, Account>,
request_cache: LruCache<MessageId, RequestMessage> }`.  Both containers are
modelled as key-value maps; the cache crate's TTL/capacity eviction (external
to this repository) only ever removes entries and is not modelled — no
verified claim depends on an eviction happening. -/
structure MaidManager where
  accounts : List (XorName × Account)
  request_cache : List (MessageId × RequestMessage)
deriving DecidableEq, Repr

/-- `MaidManager::new()`: empty account store, empty request cache. -/
def MaidManager.new : MaidManager :=
  { accounts := [], request_cache := [] }

/-- A message handed to the routing node (external collaborator); the
handlers below return the list of messages they send, in order. -/
inductive OutMsg where
  | PutSuccess (src dst : Authority) (hash : Nat) (id : MessageId)
  | PutFailure (src dst : Authority) (request : RequestMessage)
      (external_error_indicator : List Nat) (id : MessageId)
  | PutRequest (src dst : Authority) (data : Data) (id : MessageId)
  | RefreshRequest (src : Authority) (payload : XorName × Account)
deriving DecidableEq, Repr

/-- Mirrors `MaidManager::reply_with_put_failure`: serialise the error (the
modelled codec is total, as the source's `try!` only propagates a codec
failure) and send a put-failure to the original client, source and
destination reversed from the request. -/
def MaidManager.reply_with_put_failure (request : RequestMessage)
    (message_id : MessageId) (error : ClientError) :
    Except InternalError Unit × List OutMsg :=
  let src := request.dst
  let dst := request.src
  let external_error_indicator := serialise_client_error error
  (Except.ok (),
   [OutMsg.PutFailure src dst request external_error_indicator message_id])

/-- Mirrors `MaidManager::forward_put_request`: look up the client's account
(absence is `NoSuchAccount`), attempt `put_data(DEFAULT_PAYMENT)`; on error
reply to the client with the failure and return `InternalError::Client`;
on success forward the put to the `NaeManager` of the content's name and
register the original request in the cache (a prior entry under the same id
is only logged). -/
def MaidManager.forward_put_request (mm : MaidManager) (cn : XorName)
    (data : Data) (message_id : MessageId) (request : RequestMessage) :
    Except InternalError Unit × MaidManager × List OutMsg :=
  let result : Except ClientError Account :=
    match alLookup mm.accounts cn with
    | none => Except.error ClientError.NoSuchAccount
    | some account =>
        match account.put_data DEFAULT_PAYMENT with
        | (_, Except.error e) => Except.error e
        | (account', Except.ok ()) => Except.ok account'
  match result with
  | Except.error error =>
      let (_, msgs) := MaidManager.reply_with_put_failure request message_id error
      (Except.error (InternalError.Client error), mm, msgs)
  | Except.ok account' =>
      let mm1 : MaidManager :=
        { mm with accounts := (alInsert mm.accounts cn account').2 }
      let fwd := OutMsg.PutRequest request.dst (Authority.NaeManager data.name)
        data message_id
      let mm2 : MaidManager :=
        { mm1 with request_cache := (alInsert mm1.request_cache message_id request).2 }
      (Except.ok (), mm2, [fwd])

/-- Mirrors `MaidManager::handle_put_structured_data`: for structured data
with `type_tag == 0` the account must not exist (reply `AccountExists` and
return `InternalError::Client` if it does; otherwise insert a default
account), then run the common forwarding path.  A non-structured payload hits
the source's `unreachable!("Logic error")`, modelled as `InvalidDispatch`. -/
def MaidManager.handle_put_structured_data (mm : MaidManager)
    (request : RequestMessage) :
    Except InternalError Unit × MaidManager × List OutMsg :=
  match request.data with
  | Data.Structured dname type_tag =>
      let cn := client_name request.src
      if type_tag = 0 then
        if (alLookup mm.accounts cn).isSome then
          let error := ClientError.AccountExists
          let (_, msgs) :=
            MaidManager.reply_with_put_failure request request.msg_id error
          (Except.error (InternalError.Client error), mm, msgs)
        else
          let mm1 : MaidManager :=
            { mm with accounts := (alInsert mm.accounts cn Account.mkDefault).2 }
          mm1.forward_put_request cn (Data.Structured dname type_tag)
            request.msg_id request
      else
        mm.forward_put_request cn (Data.Structured dname type_tag)
          request.msg_id request
  | Data.Immutable _ => (Except.error InternalError.InvalidDispatch, mm, [])

/-- Mirrors `MaidManager::handle_put_immutable_data`: extract the immutable
payload and run the common forwarding path for the client named by the
source authority. -/
def MaidManager.handle_put_immutable_data (mm : MaidManager)
    (request : RequestMessage) :
    Except InternalError Unit × MaidManager × List OutMsg :=
  match request.data with
  | Data.Immutable dname =>
      mm.forward_put_request (client_name request.src) (Data.Immutable dname)
        request.msg_id request
  | Data.Structured _ _ => (Except.error InternalError.InvalidDispatch, mm, [])

/-- Mirrors `MaidManager::handle_put_success`: remove the id from the request
cache; on a hit, hash the cached request and send a put-success back to the
original client (source and destination reversed); on a miss return
`FailedToFindCachedRequest`. -/
def MaidManager.handle_put_success (mm : MaidManager) (message_id : MessageId) :
    Except InternalError Unit × MaidManager × List OutMsg :=
  match alLookup mm.request_cache message_id with
  | some client_request =>
      let mm1 : MaidManager :=
        { mm with request_cache := alErase mm.request_cache message_id }
      let hash := message_hash client_request
      let src := client_request.dst
      let dst := client_request.src
      (Except.ok (), mm1, [OutMsg.PutSuccess src dst hash message_id])
  | none =>
      (Except.error (InternalError.FailedToFindCachedRequest message_id), mm, [])

/-- Mirrors `MaidManager::handle_put_failure`: remove the id from the request
cache (miss: `FailedToFindCachedRequest`); on a hit, refund the account named
by the cached request's destination by `DEFAULT_PAYMENT` — but if that
account does not exist, `return Ok(())` immediately (the source's early
return: no refund, no deserialisation, no reply); otherwise deserialise the
downstream error (failure propagates as a serialisation internal error) and
reply to the client with the put-failure. -/
def MaidManager.handle_put_failure (mm : MaidManager) (message_id : MessageId)
    (external_error_indicator : List Nat) :
    Except InternalError Unit × MaidManager × List OutMsg :=
  match alLookup mm.request_cache message_id with
  | some client_request =>
      let mm1 : MaidManager :=
        { mm with request_cache := alErase mm.request_cache message_id }
      match alLookup mm1.accounts client_request.dst.name with
      | none => (Except.ok (), mm1, [])
      | some account =>
          let mm2 : MaidManager :=
            { mm1 with accounts :=
                (alInsert mm1.accounts client_request.dst.name
                  (account.delete_data DEFAULT_PAYMENT)).2 }
          match deserialise_client_error external_error_indicator with
          | none => (Except.error InternalError.Serialisation, mm2, [])
          | some error =>
              let (res, msgs) :=
                MaidManager.reply_with_put_failure client_request message_id error
              (res, mm2, msgs)
  | none =>
      (Except.error (InternalError.FailedToFindCachedRequest message_id), mm, [])

/-- Mirrors `MaidManager::handle_refresh`: unconditionally overwrite the
account stored for `name` with the received snapshot. -/
def MaidManager.handle_refresh (mm : MaidManager) (name : XorName)
    (account : Account) : MaidManager :=
  { mm with accounts := (alInsert mm.accounts name account).2 }

/-- The refresh broadcast `send_refresh` hands to the routing node for one
retained account: source authority `ClientManager(maid_name)`, payload the
serialised `Refresh` carrying the name and the account snapshot (the modelled
codec is total, so the send always happens). -/
def send_refresh (maid_name : XorName) (account : Account) : OutMsg :=
  OutMsg.RefreshRequest (Authority.ClientManager maid_name) (maid_name, account)

/-- The outcome of `routing_node.close_group(name)` for one name: the
external membership query, returning `Ok(Some(group))`, `Ok(None)`, or an
error.  The group itself is opaque. -/
abbrev CloseGroupQuery := XorName → Except Unit (Option (List XorName))

/-- The filtering pass of `handle_churn` over the account entries, in
iteration order: `Ok(None)` drops the entry, `Ok(Some(_))` sends a refresh
and keeps it, `Err(_)` drops it. -/
def churnPass (cg : CloseGroupQuery) :
    List (XorName × Account) → List (XorName × Account) × List OutMsg
  | [] => ([], [])
  | (n, a) :: rest =>
      let (kept, msgs) := churnPass cg rest
      match cg n with
      | Except.ok none => (kept, msgs)
      | Except.ok (some _) => ((n, a) :: kept, send_refresh n a :: msgs)
      | Except.error _ => (kept, msgs)

/-- Mirrors `MaidManager::handle_churn`: retain exactly the accounts whose
close-group query says this node is still responsible, broadcasting a
refresh for each retained account. -/
def MaidManager.handle_churn (mm : MaidManager) (cg : CloseGroupQuery) :
    MaidManager × List OutMsg :=
  let (kept, msgs) := churnPass cg mm.accounts
  ({ mm with accounts := kept }, msgs)

/-- `Bool` form of "the close-group query kept this name": `Ok(Some(_))`. -/
def still_responsible (cg : CloseGroupQuery) (n : XorName) : Bool :=
  match cg n with
  | Except.ok (some _) => true
  | _ => false

/-- Concrete fixture: an inbound immutable-content put request from client 3
under message id 7 (used to instantiate hypotheses in witnesses). -/
def reqA : RequestMessage :=
  { src := Authority.Client 3, dst := Authority.ClientManager 3,
    data := Data.Immutable 9, msg_id := 7 }

/-- Concrete fixture: a manager holding an account for client 3 and the
cached request `reqA` under id 7. -/
def mmHit : MaidManager :=
  { accounts := [(3, Account.mkDefault)], request_cache := [(7, reqA)] }

/-- Concrete fixture: a manager with `reqA` cached under id 7 but no account
for client 3 (the account was dropped after the request was forwarded). -/
def mmNoAcct : MaidManager :=
  { accounts := [], request_cache := [(7, reqA)] }

/-- Concrete fixture: a structured-content put request with type tag 0 from
client 3 under message id 7. -/
def reqS : RequestMessage :=
  { src := Authority.Client 3, dst := Authority.ClientManager 3,
    data := Data.Structured 9 0, msg_id := 7 }

/-! ## Helper lemmas -/

/-- Erasing a key from an association list makes lookups of that key miss. -/
theorem alLookup_alErase {α : Type} (l : List (Nat × α)) (k : Nat) :
    alLookup (alErase l k) k = none := by
  induction l with
  | nil => rfl
  | cons p rest ih =>
      obtain ⟨k', v⟩ := p
      by_cases h : k' = k
      · simpa [alErase, List.filter_cons, h] using ih
      · simpa [alErase, List.filter_cons, h, alLookup] using ih

/-- Any single accounting operation preserves `data_stored + space_available`
as long as that sum is a representable `u64` value (so no wrapping occurs). -/
theorem total_applyOp (a : Account) (op : AccountOp) (h : a.total < U64_MOD) :
    (a.applyOp op).total = a.total := by
  unfold Account.total at *
  cases op with
  | debit s =>
      simp only [Account.applyOp, Account.put_data]
      split
      · rfl
      · simp only [Account.total]
        rw [Nat.mod_eq_of_lt (by omega)]
        omega
  | refund s =>
      simp only [Account.applyOp, Account.delete_data]
      split
      · simp only [Account.total]
        rw [Nat.mod_eq_of_lt (by omega)]
        omega
      · simp only [Account.total]
        rw [Nat.mod_eq_of_lt (by omega)]
        omega

/-- Any sequence of accounting operations preserves the sum, as long as it
starts below `2^64`. -/
theorem total_applyOps (a : Account) (ops : List AccountOp)
    (h : a.total < U64_MOD) : (a.applyOps ops).total = a.total := by
  induction ops generalizing a with
  | nil => rfl
  | cons op rest ih =>
      show ((a.applyOp op).applyOps rest).total = a.total
      rw [ih (a.applyOp op) (by rw [total_applyOp a op h]; exact h)]
      exact total_applyOp a op h

/-- The churn pass keeps exactly the entries whose close-group query says
"still responsible", in order, and emits one refresh per kept entry. -/
theorem churnPass_eq (cg : CloseGroupQuery) (l : List (XorName × Account)) :
    churnPass cg l =
      (l.filter (fun p => still_responsible cg p.1),
       (l.filter (fun p => still_responsible cg p.1)).map
         (fun p => send_refresh p.1 p.2)) := by
  induction l with
  | nil => rfl
  | cons p rest ih =>
      obtain ⟨n, a⟩ := p
      simp only [churnPass, ih, List.filter_cons]
      cases hcg : cg n with
      | error e => simp [still_responsible, hcg]
      | ok o => cases o <;> simp [still_responsible, hcg]

/-- A success completion whose id misses the cache is an internal error: no
state change, no message. -/
theorem handle_put_success_miss (mm : MaidManager) (id : MessageId)
    (h : alLookup mm.request_cache id = none) :
    mm.handle_put_success id =
      (Except.error (InternalError.FailedToFindCachedRequest id), mm, []) := by
  simp [MaidManager.handle_put_success, h]

/-- A failure completion whose id misses the cache is an internal error: no
state change, no message. -/
theorem handle_put_failure_miss (mm : MaidManager) (id : MessageId)
    (b : List Nat) (h : alLookup mm.request_cache id = none) :
    mm.handle_put_failure id b =
      (Except.error (InternalError.FailedToFindCachedRequest id), mm, []) := by
  simp [MaidManager.handle_put_failure, h]

/-- After a success completion resolves an id, that id is gone from the
request cache. -/
theorem request_cache_after_success (mm : MaidManager) (id : MessageId)
    (r : RequestMessage) (h : alLookup mm.request_cache id = some r) :
    (mm.handle_put_success id).2.1.request_cache =
      alErase mm.request_cache id := by
  simp [MaidManager.handle_put_success, h]

/-- After a failure completion resolves an id — whatever happens afterwards
(account missing, undecodable error bytes, or the full reply path) — that id
is gone from the request cache. -/
theorem request_cache_after_failure (mm : MaidManager) (id : MessageId)
    (b : List Nat) (r : RequestMessage)
    (h : alLookup mm.request_cache id = some r) :
    (mm.handle_put_failure id b).2.1.request_cache =
      alErase mm.request_cache id := by
  unfold MaidManager.handle_put_failure
  rw [h]
  dsimp only
  split
  · rfl
  · split
    · rfl
    · rfl

/-! ## Claim C2 -/

/-- Claim C2 (amended): `put_data s` returns the insufficient-quota error
(`LowBalance`) if and only if `s > space_available` at call time; on failure
both fields are unchanged (it never partially applies); and on success —
provided the u64 addition `data_stored + s` does not overflow — exactly `s`
moves from `space_available` to `data_stored`. -/
theorem put_data_spec (a : Account) (s : Nat) :
    ((a.put_data s).2 = Except.error ClientError.LowBalance ↔
      s > a.space_available)
    ∧ (s > a.space_available → (a.put_data s).1 = a)
    ∧ (s ≤ a.space_available → a.data_stored + s < U64_MOD →
        (a.put_data s).1 =
          { data_stored := a.data_stored + s,
            space_available := a.space_available - s }
        ∧ (a.put_data s).2 = Except.ok ()) := by
  refine ⟨?_, ?_, ?_⟩
  · unfold Account.put_data
    split
    · simpa using by omega
    · simpa using by omega
  · intro hgt
    unfold Account.put_data
    split
    · rfl
    · omega
  · intro hle hov
    unfold Account.put_data
    split
    · omega
    · exact ⟨by simp [Nat.mod_eq_of_lt hov], rfl⟩

/-- Witness for C2: a fresh default account debited by 3. -/
theorem put_data_spec_witness :
    ((Account.mkDefault.put_data 3).2 = Except.error ClientError.LowBalance ↔
      3 > Account.mkDefault.space_available)
    ∧ (3 > Account.mkDefault.space_available →
        (Account.mkDefault.put_data 3).1 = Account.mkDefault)
    ∧ (3 ≤ Account.mkDefault.space_available →
        Account.mkDefault.data_stored + 3 < U64_MOD →
        (Account.mkDefault.put_data 3).1 =
          { data_stored := Account.mkDefault.data_stored + 3,
            space_available := Account.mkDefault.space_available - 3 }
        ∧ (Account.mkDefault.put_data 3).2 = Except.ok ()) :=
  put_data_spec Account.mkDefault 3

/-- Counterexample for C2 as stated: on the representable account
`⟨2^64 - 1, 2^64 - 1⟩` a debit of 1 succeeds, yet `data_stored` does not
become `data_stored + 1` — the u64 addition wraps to 0 (in a debug build the
source would abort instead), so "on success exactly `s` moves from
`space_available` to `data_stored`" fails at this input. -/
theorem put_data_overflow_cex :
    (Account.put_data ⟨U64_MOD - 1, U64_MOD - 1⟩ 1).2 = Except.ok ()
    ∧ (Account.put_data ⟨U64_MOD - 1, U64_MOD - 1⟩ 1).1.data_stored ≠
        (U64_MOD - 1) + 1
    ∧ (Account.put_data ⟨U64_MOD - 1, U64_MOD - 1⟩ 1).1.data_stored = 0 := by
  refine ⟨rfl, by decide, by decide⟩

/-! ## Claim C7 -/

/-- Claim C7 (amended): `delete_data` never fails (it is total); if `s`
exceeds the current `data_stored` it credits `space_available` by only
`data_stored` and zeroes `data_stored`, otherwise it moves exactly `s` from
`data_stored` back to `space_available` — in both cases provided the u64
credit to `space_available` does not overflow. -/
theorem delete_data_spec (a : Account) (s : Nat) :
    (a.data_stored < s → a.space_available + a.data_stored < U64_MOD →
      a.delete_data s =
        { data_stored := 0,
          space_available := a.space_available + a.data_stored })
    ∧ (s ≤ a.data_stored → a.space_available + s < U64_MOD →
      a.delete_data s =
        { data_stored := a.data_stored - s,
          space_available := a.space_available + s }) := by
  constructor
  · intro hlt hov
    unfold Account.delete_data
    split
    · simp [Nat.mod_eq_of_lt hov]
    · omega
  · intro hle hov
    unfold Account.delete_data
    split
    · omega
    · simp [Nat.mod_eq_of_lt hov]

/-- Witness for C7: refunding 4 from an account holding 10 stored bytes, and
the clamped refund of 4 from an account holding 1 stored byte. -/
theorem delete_data_spec_witness :
    ((Account.mk 10 100).data_stored < 4 →
      (Account.mk 10 100).space_available + (Account.mk 10 100).data_stored < U64_MOD →
      (Account.mk 10 100).delete_data 4 =
        { data_stored := 0,
          space_available := (Account.mk 10 100).space_available + (Account.mk 10 100).data_stored })
    ∧ (4 ≤ (Account.mk 10 100).data_stored →
      (Account.mk 10 100).space_available + 4 < U64_MOD →
      (Account.mk 10 100).delete_data 4 =
        { data_stored := (Account.mk 10 100).data_stored - 4,
          space_available := (Account.mk 10 100).space_available + 4 }) :=
  delete_data_spec (Account.mk 10 100) 4

/-- Counterexample for C7 as stated: on the representable account
`⟨5, 2^64 - 1⟩` a clamped refund of 6 does not credit `space_available` by
`data_stored` — the u64 addition wraps to 4 (a debug build would abort), so
the unconditional clamp description fails at this input. -/
theorem delete_data_overflow_cex :
    Account.delete_data ⟨5, U64_MOD - 1⟩ 6 = ⟨0, 4⟩
    ∧ Account.delete_data ⟨5, U64_MOD - 1⟩ 6 ≠ ⟨0, (U64_MOD - 1) + 5⟩ := by
  refine ⟨by decide, by decide⟩

/-! ## Claim C3 -/

/-- Claim C3: for every finite sequence of debits (`put_data`) and refunds
(`delete_data`) starting from the default account, in which every debit of
size `s` is matched by exactly one later refund of size at most `s`, the
final `data_stored + space_available` equals the configured account size,
1 GiB.  (The matching hypothesis is in fact not needed: see C10.) -/
theorem matched_ops_conserve_total (ops : List AccountOp)
    (_h : MatchedOps ops) :
    (Account.mkDefault.applyOps ops).total = DEFAULT_ACCOUNT_SIZE :=
  total_applyOps Account.mkDefault ops (by decide)

/-- Witness for C3: the matched sequence debit 5 then refund 5. -/
theorem matched_ops_conserve_total_witness :
    (Account.mkDefault.applyOps
        [AccountOp.debit 5, AccountOp.refund 5]).total =
      DEFAULT_ACCOUNT_SIZE :=
  matched_ops_conserve_total [AccountOp.debit 5, AccountOp.refund 5]
    (MatchedOps.debit 5 [AccountOp.refund 5] []
      (RemoveRefund.head 5 5 [] (Nat.le_refl 5)) MatchedOps.nil)

/-! ## Claim C10 -/

/-- Claim C10 (amended): `data_stored + space_available` is preserved by
every successful `put_data` and by every `delete_data` call of every size
(including the clamped case) on every account whose field sum is a
representable u64 value — in particular on every account reachable from the
default — and therefore the sum equals the configured account size after any
sequence of debits and refunds from the default account, matched or not. -/
theorem account_total_invariant (a : Account) (s : Nat)
    (ops : List AccountOp) (h : a.total < U64_MOD) :
    ((a.put_data s).2 = Except.ok () → (a.put_data s).1.total = a.total)
    ∧ (a.delete_data s).total = a.total
    ∧ (Account.mkDefault.applyOps ops).total = DEFAULT_ACCOUNT_SIZE := by
  refine ⟨?_, ?_, total_applyOps Account.mkDefault ops (by decide)⟩
  · intro hok
    have := total_applyOp a (AccountOp.debit s) h
    simp only [Account.applyOp] at this
    exact this
  · exact total_applyOp a (AccountOp.refund s) h

/-- Witness for C10: a default account, size 5, and an unmatched sequence of
two debits followed by one oversized refund. -/
theorem account_total_invariant_witness :
    ((Account.mkDefault.put_data 5).2 = Except.ok () →
      (Account.mkDefault.put_data 5).1.total = Account.mkDefault.total)
    ∧ (Account.mkDefault.delete_data 5).total = Account.mkDefault.total
    ∧ (Account.mkDefault.applyOps
        [AccountOp.debit 3, AccountOp.debit 4, AccountOp.refund 9]).total =
      DEFAULT_ACCOUNT_SIZE :=
  account_total_invariant Account.mkDefault 5
    [AccountOp.debit 3, AccountOp.debit 4, AccountOp.refund 9] (by decide)

/-- Counterexample for C10 as stated: the per-operation preservation is not
unconditional over all representable accounts — on `⟨2^64 - 1, 1⟩` a
successful debit of 1 wraps `data_stored` and the sum drops from `2^64` to 0. -/
theorem account_total_overflow_cex :
    (Account.put_data ⟨U64_MOD - 1, 1⟩ 1).2 = Except.ok ()
    ∧ (Account.put_data ⟨U64_MOD - 1, 1⟩ 1).1.total ≠
        (Account.mk (U64_MOD - 1) 1).total := by
  refine ⟨rfl, by decide⟩

/-! ## Claim C9 -/

/-- Claim C9: for every success notification whose id resolves in the cache
to request `r`, `handle_put_success` returns success, removes only that cache
entry, sends exactly one message — a put-success whose source is the cached
request's destination and whose destination is the cached request's source,
carrying the hash of the cached request — and leaves every account in the
store unchanged. -/
theorem handle_put_success_spec (mm : MaidManager) (id : MessageId)
    (r : RequestMessage) (h : alLookup mm.request_cache id = some r) :
    mm.handle_put_success id =
      (Except.ok (),
       { mm with request_cache := alErase mm.request_cache id },
       [OutMsg.PutSuccess r.dst r.src (message_hash r) id])
    ∧ (mm.handle_put_success id).2.1.accounts = mm.accounts := by
  constructor
  · simp [MaidManager.handle_put_success, h]
  · simp [MaidManager.handle_put_success, h]

/-- Witness for C9: the fixture manager `mmHit` resolving id 7 to `reqA`. -/
theorem handle_put_success_spec_witness :
    mmHit.handle_put_success 7 =
      (Except.ok (),
       { mmHit with request_cache := alErase mmHit.request_cache 7 },
       [OutMsg.PutSuccess reqA.dst reqA.src (message_hash reqA) 7])
    ∧ (mmHit.handle_put_success 7).2.1.accounts = mmHit.accounts :=
  handle_put_success_spec mmHit 7 reqA rfl

/-! ## Claim C5 -/

/-- Claim C5: once a completion — success or failure — has resolved an id
from the cache, a second completion of either kind for the same id finds no
cache entry: it returns the `FailedToFindCachedRequest` internal error,
changes nothing, and sends no client response. -/
theorem resolve_at_most_once (mm : MaidManager) (id : MessageId)
    (r : RequestMessage) (b1 b2 : List Nat)
    (h : alLookup mm.request_cache id = some r) :
    ((mm.handle_put_success id).2.1.handle_put_success id =
      (Except.error (InternalError.FailedToFindCachedRequest id),
       (mm.handle_put_success id).2.1, []))
    ∧ ((mm.handle_put_success id).2.1.handle_put_failure id b2 =
      (Except.error (InternalError.FailedToFindCachedRequest id),
       (mm.handle_put_success id).2.1, []))
    ∧ ((mm.handle_put_failure id b1).2.1.handle_put_success id =
      (Except.error (InternalError.FailedToFindCachedRequest id),
       (mm.handle_put_failure id b1).2.1, []))
    ∧ ((mm.handle_put_failure id b1).2.1.handle_put_failure id b2 =
      (Except.error (InternalError.FailedToFindCachedRequest id),
       (mm.handle_put_failure id b1).2.1, [])) := by
  have hs : alLookup (mm.handle_put_success id).2.1.request_cache id = none := by
    rw [request_cache_after_success mm id r h]
    exact alLookup_alErase mm.request_cache id
  have hf : alLookup (mm.handle_put_failure id b1).2.1.request_cache id = none := by
    rw [request_cache_after_failure mm id b1 r h]
    exact alLookup_alErase mm.request_cache id
  exact ⟨handle_put_success_miss _ id hs, handle_put_failure_miss _ id b2 hs,
    handle_put_success_miss _ id hf, handle_put_failure_miss _ id b2 hf⟩

/-- Witness for C5: `mmHit` resolving id 7, with well-formed error bytes. -/
theorem resolve_at_most_once_witness :
    ((mmHit.handle_put_success 7).2.1.handle_put_success 7 =
      (Except.error (InternalError.FailedToFindCachedRequest 7),
       (mmHit.handle_put_success 7).2.1, []))
    ∧ ((mmHit.handle_put_success 7).2.1.handle_put_failure 7 [2] =
      (Except.error (InternalError.FailedToFindCachedRequest 7),
       (mmHit.handle_put_success 7).2.1, []))
    ∧ ((mmHit.handle_put_failure 7 [0]).2.1.handle_put_success 7 =
      (Except.error (InternalError.FailedToFindCachedRequest 7),
       (mmHit.handle_put_failure 7 [0]).2.1, []))
    ∧ ((mmHit.handle_put_failure 7 [0]).2.1.handle_put_failure 7 [2] =
      (Except.error (InternalError.FailedToFindCachedRequest 7),
       (mmHit.handle_put_failure 7 [0]).2.1, [])) :=
  resolve_at_most_once mmHit 7 reqA [0] [2] rfl

/-! ## Claim C1 -/

/-- Claim C1 (amended): for every failure notification whose id resolves in
the cache to request `r`: when an account exists under the cached request's
destination name, `handle_put_failure` refunds it by the fixed payment size,
deserialises the downstream-supplied error, and sends exactly one
client-facing put-failure carrying that error; when the account no longer
exists, the handler returns success immediately — not only the refund but
the whole remainder (deserialisation and the client-facing failure response)
is skipped. -/
theorem handle_put_failure_spec (mm : MaidManager) (id : MessageId)
    (r : RequestMessage) (bytes : List Nat)
    (hcache : alLookup mm.request_cache id = some r) :
    (∀ acct e, alLookup mm.accounts r.dst.name = some acct →
      deserialise_client_error bytes = some e →
      mm.handle_put_failure id bytes =
        (Except.ok (),
         { accounts :=
             (alInsert mm.accounts r.dst.name
               (acct.delete_data DEFAULT_PAYMENT)).2,
           request_cache := alErase mm.request_cache id },
         [OutMsg.PutFailure r.dst r.src r (serialise_client_error e) id]))
    ∧ (alLookup mm.accounts r.dst.name = none →
      mm.handle_put_failure id bytes =
        (Except.ok (),
         { mm with request_cache := alErase mm.request_cache id }, [])) := by
  constructor
  · intro acct e hacct hdeser
    unfold MaidManager.handle_put_failure
    rw [hcache]
    dsimp only
    rw [hacct, hdeser]
    rfl
  · intro hacct
    unfold MaidManager.handle_put_failure
    rw [hcache]
    dsimp only
    rw [hacct]

/-- Witness for C1: both branches at concrete inputs — `mmHit` (account
present, bytes decoding to `NoSuchAccount`) and `mmNoAcct` (account absent). -/
theorem handle_put_failure_spec_witness :
    ((∀ acct e, alLookup mmHit.accounts reqA.dst.name = some acct →
      deserialise_client_error [2] = some e →
      mmHit.handle_put_failure 7 [2] =
        (Except.ok (),
         { accounts :=
             (alInsert mmHit.accounts reqA.dst.name
               (acct.delete_data DEFAULT_PAYMENT)).2,
           request_cache := alErase mmHit.request_cache 7 },
         [OutMsg.PutFailure reqA.dst reqA.src reqA (serialise_client_error e) 7]))
    ∧ (alLookup mmHit.accounts reqA.dst.name = none →
      mmHit.handle_put_failure 7 [2] =
        (Except.ok (),
         { mmHit with request_cache := alErase mmHit.request_cache 7 }, [])))
    ∧ ((∀ acct e, alLookup mmNoAcct.accounts reqA.dst.name = some acct →
      deserialise_client_error [2] = some e →
      mmNoAcct.handle_put_failure 7 [2] =
        (Except.ok (),
         { accounts :=
             (alInsert mmNoAcct.accounts reqA.dst.name
               (acct.delete_data DEFAULT_PAYMENT)).2,
           request_cache := alErase mmNoAcct.request_cache 7 },
         [OutMsg.PutFailure reqA.dst reqA.src reqA (serialise_client_error e) 7]))
    ∧ (alLookup mmNoAcct.accounts reqA.dst.name = none →
      mmNoAcct.handle_put_failure 7 [2] =
        (Except.ok (),
         { mmNoAcct with request_cache := alErase mmNoAcct.request_cache 7 },
         []))) :=
  ⟨handle_put_failure_spec mmHit 7 reqA [2] rfl,
   handle_put_failure_spec mmNoAcct 7 reqA [2] rfl⟩

/-- Counterexample for C1 as stated: in `mmNoAcct` the id 7 resolves in the
cache and the bytes `[0]` decode to a valid downstream error, yet because the
account is gone the handler returns success having sent no message at all —
the client-facing failure response required by "the rest of the handling
still applies" is never sent. -/
theorem handle_put_failure_cex :
    deserialise_client_error [0] = some ClientError.LowBalance
    ∧ alLookup mmNoAcct.request_cache 7 = some reqA
    ∧ mmNoAcct.handle_put_failure 7 [0] =
        (Except.ok (), MaidManager.mk [] [], []) := by
  refine ⟨rfl, rfl, rfl⟩

/-! ## Claim C4 -/

/-- Claim C4: for an inbound put request whose client has an account: when
the debit fails for insufficient quota (`DEFAULT_PAYMENT > space_available`),
`forward_put_request` sends exactly one client-facing put-failure echoing the
original request and the serialised error, returns the client-typed error to
the caller, performs no downstream forward, and leaves the whole state — in
particular the request-correlation cache — unchanged; when the debit
succeeds it forwards exactly one put to the `NaeManager` of the content's
address, stores the debited account, and registers the original request in
the cache, sending no failure response. -/
theorem forward_put_request_spec (mm : MaidManager) (cn : XorName)
    (data : Data) (id : MessageId) (req : RequestMessage) (acct : Account)
    (hacct : alLookup mm.accounts cn = some acct) :
    (DEFAULT_PAYMENT > acct.space_available →
      mm.forward_put_request cn data id req =
        (Except.error (InternalError.Client ClientError.LowBalance), mm,
         [OutMsg.PutFailure req.dst req.src req
           (serialise_client_error ClientError.LowBalance) id]))
    ∧ (DEFAULT_PAYMENT ≤ acct.space_available →
      mm.forward_put_request cn data id req =
        (Except.ok (),
         { accounts :=
             (alInsert mm.accounts cn (acct.put_data DEFAULT_PAYMENT).1).2,
           request_cache := (alInsert mm.request_cache id req).2 },
         [OutMsg.PutRequest req.dst (Authority.NaeManager data.name) data id])) := by
  constructor
  · intro hgt
    unfold MaidManager.forward_put_request
    rw [hacct]
    dsimp only
    unfold Account.put_data
    rw [if_pos hgt]
    rfl
  · intro hle
    unfold MaidManager.forward_put_request
    rw [hacct]
    dsimp only
    unfold Account.put_data
    rw [if_neg (by omega)]

/-- Witness for C4: the fixture `mmHit` forwarding `reqA` for client 3, whose
default account can afford the fixed payment. -/
theorem forward_put_request_spec_witness :
    (DEFAULT_PAYMENT > Account.mkDefault.space_available →
      mmHit.forward_put_request 3 (Data.Immutable 9) 7 reqA =
        (Except.error (InternalError.Client ClientError.LowBalance), mmHit,
         [OutMsg.PutFailure reqA.dst reqA.src reqA
           (serialise_client_error ClientError.LowBalance) 7]))
    ∧ (DEFAULT_PAYMENT ≤ Account.mkDefault.space_available →
      mmHit.forward_put_request 3 (Data.Immutable 9) 7 reqA =
        (Except.ok (),
         { accounts :=
             (alInsert mmHit.accounts 3
               (Account.mkDefault.put_data DEFAULT_PAYMENT).1).2,
           request_cache := (alInsert mmHit.request_cache 7 reqA).2 },
         [OutMsg.PutRequest reqA.dst (Authority.NaeManager
           (Data.name (Data.Immutable 9))) (Data.Immutable 9) 7])) :=
  forward_put_request_spec mmHit 3 (Data.Immutable 9) 7 reqA
    Account.mkDefault rfl

/-! ## Claim C8 -/

/-- Claim C8: for a structured-content put request with type discriminator 0:
if an account already exists for the client, the handler replies to the
client with the account-already-exists failure, does not forward, and
surfaces the client-level error `InternalError::Client(AccountExists)`; if no
account exists, a default account — `data_stored = 0`, `space_available` =
1 GiB — is inserted for the client and then the common forwarding path runs
on the updated store. -/
theorem handle_put_structured_data_spec (mm : MaidManager)
    (req : RequestMessage) (dname : XorName)
    (hdata : req.data = Data.Structured dname 0) :
    ((alLookup mm.accounts (client_name req.src)).isSome →
      mm.handle_put_structured_data req =
        (Except.error (InternalError.Client ClientError.AccountExists), mm,
         [OutMsg.PutFailure req.dst req.src req
           (serialise_client_error ClientError.AccountExists) req.msg_id]))
    ∧ (alLookup mm.accounts (client_name req.src) = none →
      mm.handle_put_structured_data req =
        MaidManager.forward_put_request
          { mm with accounts :=
              (alInsert mm.accounts (client_name req.src) Account.mkDefault).2 }
          (client_name req.src) (Data.Structured dname 0) req.msg_id req)
    ∧ Account.mkDefault =
        { data_stored := 0, space_available := 1073741824 } := by
  refine ⟨?_, ?_, rfl⟩
  · intro hsome
    unfold MaidManager.handle_put_structured_data
    rw [hdata]
    dsimp only
    rw [if_pos rfl, if_pos hsome]
    rfl
  · intro hnone
    unfold MaidManager.handle_put_structured_data
    rw [hdata]
    dsimp only
    rw [if_pos rfl, if_neg (by simp [hnone])]

/-- Witness for C8: the structured tag-0 request `reqS` against the fixture
`mmNoAcct`, which holds no account for client 3. -/
theorem handle_put_structured_data_spec_witness :
    ((alLookup mmNoAcct.accounts (client_name reqS.src)).isSome →
      mmNoAcct.handle_put_structured_data reqS =
        (Except.error (InternalError.Client ClientError.AccountExists),
         mmNoAcct,
         [OutMsg.PutFailure reqS.dst reqS.src reqS
           (serialise_client_error ClientError.AccountExists) reqS.msg_id]))
    ∧ (alLookup mmNoAcct.accounts (client_name reqS.src) = none →
      mmNoAcct.handle_put_structured_data reqS =
        MaidManager.forward_put_request
          { mmNoAcct with accounts :=
              (alInsert mmNoAcct.accounts (client_name reqS.src)
                Account.mkDefault).2 }
          (client_name reqS.src) (Data.Structured 9 0) reqS.msg_id reqS)
    ∧ Account.mkDefault =
        { data_stored := 0, space_available := 1073741824 } :=
  handle_put_structured_data_spec mmNoAcct reqS 9 rfl

/-! ## Claim C6 -/

/-- Claim C6: after a single churn pass, the account store contains exactly
the entries for which the close-group query returned "still responsible"
(`Ok(Some(_))`); entries for which it returned `Ok(None)` or an error are
absent; each retained account contributes exactly one refresh broadcast; and
the request cache is untouched. -/
theorem handle_churn_spec (mm : MaidManager) (cg : CloseGroupQuery) :
    (mm.handle_churn cg).1.accounts =
      mm.accounts.filter (fun p => still_responsible cg p.1)
    ∧ (mm.handle_churn cg).2 =
      (mm.accounts.filter (fun p => still_responsible cg p.1)).map
        (fun p => send_refresh p.1 p.2)
    ∧ (mm.handle_churn cg).1.request_cache = mm.request_cache
    ∧ ∀ n a, ((n, a) ∈ (mm.handle_churn cg).1.accounts ↔
        ((n, a) ∈ mm.accounts ∧ still_responsible cg n = true)) := by
  unfold MaidManager.handle_churn
  rw [churnPass_eq cg mm.accounts]
  refine ⟨rfl, rfl, rfl, ?_⟩
  intro n a
  simp [List.mem_filter]

end SafeVault
